import Mathlib

/-!
Shallow embedding of src/bentoml_deploy/bento_packer.py.

The script is straight-line Python:

  try:
      from bento_service import IrisClassifier
      from train import clf
  except:
      from bentoml_deploy.bento_service import IrisClassifier
      from bentoml_deploy.train import clf
  iris_classifier_service = IrisClassifier()
  iris_classifier_service.pack(the slot string model, clf)
  saved_path = iris_classifier_service.save()

All external behaviour (the two import targets per symbol, the
IrisClassifier constructor, and the framework methods pack and save) is
opaque to the script, so it is modelled by an environment of
Except-returning operations.  The script itself is modelled by runScript,
which records a trace of the operations it attempts, the name bindings
produced by the import block, the variable saved_path, the filesystem it
threads through save, and the uncaught exception (if any) that terminates
the run.
-/

/-- An opaque trained model object (the clf symbol imported by the script). -/
structure Model where
  ident : Nat
deriving DecidableEq, Repr

/-- An opaque service-wrapper instance produced by the IrisClassifier
constructor; the framework may store packed artifacts in it. -/
structure ServiceInstance where
  artifacts : List (String × Model)
deriving DecidableEq, Repr

/-- A Python exception value, identified only by a name: the bare except
clause of the script never looks inside, and neither does anything else. -/
structure Exn where
  exnName : String
deriving DecidableEq, Repr

/-- Which import attempt bound a symbol: the plain module paths of the try
body, or the package-qualified paths of the except branch. -/
inductive Provenance where
  | plain
  | pkg
deriving DecidableEq, Repr

/-- The operations the script can attempt, in the order it attempts them.
An event is recorded when the corresponding statement starts executing,
whether or not it then raises. -/
inductive Event where
  | importPlainClass
  | importPlainModel
  | importPkgClass
  | importPkgModel
  | constructService
  | packOp (slot : String) (m : Model)
  | saveOp
deriving DecidableEq, Repr

/-- The module-level name bindings the import block can produce.  Each
records which attempt last bound the symbol; clf also records the bound
model object. -/
structure Bindings where
  irisClassifier : Option Provenance
  clf : Option (Provenance × Model)
deriving DecidableEq, Repr

/-- The environment: the outcome of each of the four import statements,
of the constructor call, and the (opaque, framework-provided) behaviours
of the pack and save methods.  save threads the filesystem, modelled as
the list of existing paths. -/
structure Env where
  import1_class : Except Exn Unit
  import1_model : Except Exn Model
  import2_class : Except Exn Unit
  import2_model : Except Exn Model
  construct : Except Exn ServiceInstance
  packImpl : ServiceInstance → String → Model → Except Exn ServiceInstance
  saveImpl : ServiceInstance → List String → Except Exn (String × List String)

/-- Result of running the try/except import block: the events attempted,
the bindings in scope afterwards, and the exception leaving the block
uncaught (if any). -/
structure ImportResult where
  trace : List Event
  b : Bindings
  exn : Option Exn
deriving Repr

/-- The except branch of the import block: rebinds both symbols from the
package-qualified paths; an exception here leaves the block uncaught.
It runs with whatever trace and bindings the try body left behind. -/
def fallbackImports (env : Env) (tr : List Event) (b : Bindings) : ImportResult :=
  match env.import2_class with
  | .error e => ⟨tr ++ [Event.importPkgClass], b, some e⟩
  | .ok _ =>
    let b1 : Bindings := { b with irisClassifier := some Provenance.pkg }
    match env.import2_model with
    | .error e => ⟨tr ++ [Event.importPkgClass, Event.importPkgModel], b1, some e⟩
    | .ok m =>
      ⟨tr ++ [Event.importPkgClass, Event.importPkgModel],
       { b1 with clf := some (Provenance.pkg, m) }, none⟩

/-- The try/except import block of the script.  The try body runs the two
plain imports in order; any exception from either (its value is discarded,
as by a bare except clause) transfers control to the except branch with
whatever bindings the body had already made. -/
def importBlock (env : Env) : ImportResult :=
  match env.import1_class with
  | .error _ => fallbackImports env [Event.importPlainClass] ⟨none, none⟩
  | .ok _ =>
    let b1 : Bindings := ⟨some Provenance.plain, none⟩
    match env.import1_model with
    | .error _ => fallbackImports env [Event.importPlainClass, Event.importPlainModel] b1
    | .ok m =>
      ⟨[Event.importPlainClass, Event.importPlainModel],
       { b1 with clf := some (Provenance.plain, m) }, none⟩

/-- The observable state when the script stops: the trace of attempted
operations, the bindings, the variable saved_path (bound only if save
returned), the filesystem, and the uncaught exception (none on a
successful run). -/
structure RunState where
  trace : List Event
  bindings : Bindings
  saved_path : Option String
  fs : List String
  exn : Option Exn
deriving Repr

/-- The three statements after the import block: construct the instance,
pack the model under the slot string model, save.  Looking up an unbound name
raises NameError before the corresponding call is attempted; any exception
propagates and stops the run. -/
def runRest (env : Env) (tr : List Event) (b : Bindings) (fs0 : List String) : RunState :=
  match b.irisClassifier with
  | none => ⟨tr, b, none, fs0, some ⟨"NameError"⟩⟩
  | some _ =>
    let tr1 := tr ++ [Event.constructService]
    match env.construct with
    | .error e => ⟨tr1, b, none, fs0, some e⟩
    | .ok svc =>
      match b.clf with
      | none => ⟨tr1, b, none, fs0, some ⟨"NameError"⟩⟩
      | some (_, m) =>
        let tr2 := tr1 ++ [Event.packOp "model" m]
        match env.packImpl svc "model" m with
        | .error e => ⟨tr2, b, none, fs0, some e⟩
        | .ok svc2 =>
          let tr3 := tr2 ++ [Event.saveOp]
          match env.saveImpl svc2 fs0 with
          | .error e => ⟨tr3, b, none, fs0, some e⟩
          | .ok (p, fs1) => ⟨tr3, b, some p, fs1, none⟩

/-- The whole script: run the import block; if it raised, the run stops
there, otherwise execute the three remaining statements. -/
def runScript (env : Env) (fs0 : List String) : RunState :=
  let ir := importBlock env
  match ir.exn with
  | some e => ⟨ir.trace, ir.b, none, fs0, some e⟩
  | none => runRest env ir.trace ir.b fs0

/-- Modelled from the spec: the contract of the save method of the
external framework, which is not part of this repository.  A successful save persists
exactly one new artifact at a framework-chosen, non-empty path and returns
that path. -/
def SaveOneArtifact (env : Env) : Prop :=
  ∀ svc fs p fs1, env.saveImpl svc fs = .ok (p, fs1) → p ≠ "" ∧ fs1 = fs ++ [p]

/-- The try body of the import block raised: either the first plain import
failed, or it succeeded and the second plain import failed. -/
def FirstAttemptFails (env : Env) : Prop :=
  (∃ e, env.import1_class = .error e) ∨
    ((∃ u, env.import1_class = .ok u) ∧ ∃ e, env.import1_model = .error e)

/-- An environment substitution used to state that the script never
inspects the string save returns: replace the path save would report by an
arbitrary other string, leaving every other behaviour unchanged. -/
def withSavedPath (env : Env) (q : String) : Env :=
  { env with saveImpl := fun svc fs => (env.saveImpl svc fs).map (fun r => (q, r.2)) }

/-- A concrete trained model object, for concrete runs. -/
def clfA : Model := ⟨0⟩

/-- A concrete environment where everything succeeds on the plain import
paths: pack stores the artifact on the instance, save persists one file at
a fixed framework-chosen path. -/
def envOk : Env where
  import1_class := .ok ()
  import1_model := .ok clfA
  import2_class := .ok ()
  import2_model := .ok clfA
  construct := .ok ⟨[]⟩
  packImpl := fun svc s m => .ok ⟨svc.artifacts ++ [(s, m)]⟩
  saveImpl := fun _ fs => .ok ("/bento/IrisClassifier", fs ++ ["/bento/IrisClassifier"])

/-- A concrete environment where the plain-path import of the class fails
and the package-qualified fallback succeeds. -/
def envFb : Env := { envOk with import1_class := .error ⟨"ModuleNotFoundError"⟩ }

/-- A concrete environment where the imports, construction and packing
succeed and save raises. -/
def envBadSave : Env := { envOk with saveImpl := fun _ _ => .error ⟨"OSError"⟩ }

/-- Every event the import block records is one of the four import events. -/
theorem importBlock_trace_events (env : Env) :
    ∀ ev ∈ (importBlock env).trace,
      ev = Event.importPlainClass ∨ ev = Event.importPlainModel ∨
      ev = Event.importPkgClass ∨ ev = Event.importPkgModel := by
  unfold importBlock fallbackImports
  rcases h1 : env.import1_class with e1 | u1 <;> simp [h1]
  · rcases h2 : env.import2_class with e2 | u2 <;> simp [h2]
    rcases h3 : env.import2_model with e3 | m3 <;> simp [h3]
  · rcases h2 : env.import1_model with e2 | m2 <;> simp [h2]
    rcases h3 : env.import2_class with e3 | u3 <;> simp [h3]
    rcases h4 : env.import2_model with e4 | m4 <;> simp [h4]

/-- The trace of the tail of the script extends the import trace by one of
four possible suffixes, in attempt order. -/
theorem runRest_trace_shape (env : Env) (tr : List Event) (b : Bindings) (fs0 : List String) :
    (runRest env tr b fs0).trace = tr ∨
    (runRest env tr b fs0).trace = tr ++ [Event.constructService] ∨
    (∃ pr m, b.clf = some (pr, m) ∧ (runRest env tr b fs0).trace =
      tr ++ [Event.constructService, Event.packOp "model" m]) ∨
    (∃ pr m, b.clf = some (pr, m) ∧ (runRest env tr b fs0).trace =
      tr ++ [Event.constructService, Event.packOp "model" m, Event.saveOp]) := by
  unfold runRest
  rcases hic : b.irisClassifier with _ | pr <;> simp [hic]
  rcases h1 : env.construct with e | svc <;> simp [h1]
  rcases hcl : b.clf with _ | ⟨pr2, m⟩ <;> simp [hcl]
  rcases h2 : env.packImpl svc "model" m with e | svc2 <;> simp [h2]
  rcases h3 : env.saveImpl svc2 fs0 with e | ⟨p, fs1⟩ <;> simp [h3]

/-- A run of the tail that raises no exception fully determines its result:
the names resolved, construct, pack and save all succeeded, and the final
state records the path and filesystem save returned. -/
theorem runRest_success (env : Env) (tr : List Event) (b : Bindings) (fs0 : List String)
    (h : (runRest env tr b fs0).exn = none) :
    ∃ prc pr m svc svc2 p fs1,
      b.irisClassifier = some prc ∧ b.clf = some (pr, m) ∧
      env.construct = .ok svc ∧ env.packImpl svc "model" m = .ok svc2 ∧
      env.saveImpl svc2 fs0 = .ok (p, fs1) ∧
      runRest env tr b fs0 =
        ⟨tr ++ [Event.constructService, Event.packOp "model" m, Event.saveOp],
         b, some p, fs1, none⟩ := by
  unfold runRest at h ⊢
  rcases hic : b.irisClassifier with _ | pr <;> simp [hic] at h ⊢
  rcases h1 : env.construct with e | svc <;> simp [h1] at h ⊢
  rcases hcl : b.clf with _ | ⟨pr2, m⟩ <;> simp [hcl] at h ⊢
  rcases h2 : env.packImpl svc "model" m with e | svc2 <;> simp [h2] at h ⊢
  rcases h3 : env.saveImpl svc2 fs0 with e | ⟨p, fs1⟩ <;> simp [h3] at h ⊢
  exact ⟨pr2, m, ⟨rfl, rfl⟩, svc2, h2, p, fs1, h3, rfl, rfl, rfl⟩

/-- A run whose script-level exception is none passed the import block
cleanly and continued with the import trace and bindings. -/
theorem runScript_success (env : Env) (fs0 : List String)
    (h : (runScript env fs0).exn = none) :
    (importBlock env).exn = none ∧
      runScript env fs0 = runRest env (importBlock env).trace (importBlock env).b fs0 := by
  unfold runScript at h ⊢
  rcases hib : (importBlock env).exn with _ | e <;> simp [hib] at h ⊢

/-- Replacing the string save returns changes nothing the script does
except the value bound to saved_path: the trace, the uncaught exception
and the filesystem are untouched, and saved_path is renamed pointwise. -/
theorem runRest_withSavedPath (env : Env) (q : String) (tr : List Event) (b : Bindings)
    (fs0 : List String) :
    (runRest (withSavedPath env q) tr b fs0).trace = (runRest env tr b fs0).trace ∧
    (runRest (withSavedPath env q) tr b fs0).exn = (runRest env tr b fs0).exn ∧
    (runRest (withSavedPath env q) tr b fs0).fs = (runRest env tr b fs0).fs ∧
    (runRest (withSavedPath env q) tr b fs0).saved_path
      = (runRest env tr b fs0).saved_path.map (fun _ => q) := by
  unfold runRest withSavedPath
  rcases hic : b.irisClassifier with _ | pr <;> simp [hic]
  rcases h1 : env.construct with e | svc <;> simp [h1]
  rcases hcl : b.clf with _ | ⟨pr2, m⟩ <;> simp [hcl]
  rcases h2 : env.packImpl svc "model" m with e | svc2 <;> simp [h2]
  rcases h3 : env.saveImpl svc2 fs0 with e | ⟨p, fs1⟩ <;> simp [h3, Except.map]

/-- The import block never reads the save method, so substituting the
saved path leaves it unchanged. -/
theorem importBlock_withSavedPath (env : Env) (q : String) :
    importBlock (withSavedPath env q) = importBlock env := rfl

/-- The trace of the whole script extends the trace of the import block. -/
theorem runScript_trace_extends (env : Env) (fs0 : List String) :
    ∃ tl, (runScript env fs0).trace = (importBlock env).trace ++ tl := by
  unfold runScript
  rcases hib : (importBlock env).exn with _ | e <;> simp [hib]
  rcases runRest_trace_shape env (importBlock env).trace (importBlock env).b fs0 with
    h | h | ⟨pr, m, hcl, h⟩ | ⟨pr, m, hcl, h⟩
  · exact ⟨[], by simp [h]⟩
  · exact ⟨_, h⟩
  · exact ⟨_, h⟩
  · exact ⟨_, h⟩

/-- C9: if the import block finishes with no uncaught exception, the two
symbols are bound as a pair from the same attempt, and whenever the first
(plain-path) attempt failed, both symbols are bound from the
package-qualified fallback paths. -/
theorem imports_bound_pairwise (env : Env) (h : (importBlock env).exn = none) :
    (((importBlock env).b.irisClassifier = some Provenance.plain ∧
       ∃ m, (importBlock env).b.clf = some (Provenance.plain, m)) ∨
     ((importBlock env).b.irisClassifier = some Provenance.pkg ∧
       ∃ m, (importBlock env).b.clf = some (Provenance.pkg, m))) ∧
    (FirstAttemptFails env →
      (importBlock env).b.irisClassifier = some Provenance.pkg ∧
        ∃ m, (importBlock env).b.clf = some (Provenance.pkg, m)) := by
  unfold importBlock fallbackImports at h ⊢
  rcases h1 : env.import1_class with e1 | u1 <;> simp [h1] at h ⊢
  · rcases h2 : env.import2_class with e2 | u2 <;> simp [h2] at h ⊢
    rcases h3 : env.import2_model with e3 | m3 <;> simp [h3] at h ⊢
  · rcases h2 : env.import1_model with e2 | m2 <;> simp [h2] at h ⊢
    · rcases h3 : env.import2_class with e3 | u3 <;> simp [h3] at h ⊢
      rcases h4 : env.import2_model with e4 | m4 <;> simp [h4] at h ⊢
    · intro hf
      rcases hf with ⟨e, he⟩ | ⟨_, e, he⟩
      · rw [h1] at he; exact absurd he (by simp)
      · rw [h2] at he; exact absurd he (by simp)

/-- C9 witness: with the plain-path class import failing and the fallback
succeeding, the block exits cleanly with both symbols bound from the
package-qualified paths. -/
theorem imports_bound_pairwise_w :
    (importBlock envFb).b.irisClassifier = some Provenance.pkg ∧
      ∃ m, (importBlock envFb).b.clf = some (Provenance.pkg, m) :=
  (imports_bound_pairwise envFb rfl).2 (Or.inl ⟨⟨"ModuleNotFoundError"⟩, rfl⟩)

/-- C2: whenever the try body fails, for any exception value whatsoever,
the script attempts the package-qualified import path. -/
theorem fallback_attempt_unconditional (env : Env) (fs0 : List String)
    (h : FirstAttemptFails env) :
    Event.importPkgClass ∈ (runScript env fs0).trace := by
  obtain ⟨tl, htl⟩ := runScript_trace_extends env fs0
  rw [htl]
  refine List.mem_append_left _ ?_
  unfold importBlock fallbackImports
  rcases h with ⟨e, he⟩ | ⟨⟨u, hu⟩, e, he⟩
  · simp [he]
    rcases h2 : env.import2_class with e2 | u2 <;> simp [h2]
    rcases h3 : env.import2_model with e3 | m3 <;> simp [h3]
  · simp [hu, he]
    rcases h2 : env.import2_class with e2 | u2 <;> simp [h2]
    rcases h3 : env.import2_model with e3 | m3 <;> simp [h3]

/-- C2 witness: with the plain class import failing, the run attempts the
package-qualified import. -/
theorem fallback_attempt_unconditional_w :
    Event.importPkgClass ∈ (runScript envFb []).trace :=
  fallback_attempt_unconditional envFb [] (Or.inl ⟨⟨"ModuleNotFoundError"⟩, rfl⟩)

/-- C5: every pack operation the script attempts carries the constant slot
model (the same constant in every run) and the model object bound to clf
by the import block. -/
theorem pack_slot_model (env : Env) (fs0 : List String) (s : String) (m : Model)
    (h : Event.packOp s m ∈ (runScript env fs0).trace) :
    s = "model" ∧ ∃ pr, (importBlock env).b.clf = some (pr, m) := by
  have hno : Event.packOp s m ∉ (importBlock env).trace := by
    intro hmem
    rcases importBlock_trace_events env _ hmem with h1 | h1 | h1 | h1 <;> simp at h1
  unfold runScript at h
  rcases hib : (importBlock env).exn with _ | e <;> simp [hib] at h
  · rcases runRest_trace_shape env (importBlock env).trace (importBlock env).b fs0 with
      ht | ht | ⟨pr, m2, hcl, ht⟩ | ⟨pr, m2, hcl, ht⟩ <;> rw [ht] at h
    · exact absurd h hno
    · simp at h
      exact absurd h hno
    · simp at h
      rcases h with h | ⟨hs, hm⟩
      · exact absurd h hno
      · exact ⟨hs, pr, by rw [hm]; exact hcl⟩
    · simp at h
      rcases h with h | ⟨hs, hm⟩
      · exact absurd h hno
      · exact ⟨hs, pr, by rw [hm]; exact hcl⟩
  · exact absurd h hno

/-- C5 witness: in the all-success run the pack event in the trace carries
the constant slot string and the imported model. -/
theorem pack_slot_model_w :
    "model" = "model" ∧ ∃ pr, (importBlock envOk).b.clf = some (pr, clfA) :=
  pack_slot_model envOk [] "model" clfA (by decide)

/-- C4: the trace of a successful run is exactly import events followed by
construct, pack into the model slot, save — each once and in that order. -/
theorem success_linear_sequence (env : Env) (fs0 : List String)
    (h : (runScript env fs0).exn = none) :
    ∃ m itr,
      (runScript env fs0).trace =
        itr ++ [Event.constructService, Event.packOp "model" m, Event.saveOp] ∧
      ∀ ev ∈ itr,
        ev = Event.importPlainClass ∨ ev = Event.importPlainModel ∨
        ev = Event.importPkgClass ∨ ev = Event.importPkgModel := by
  obtain ⟨hib, hrun⟩ := runScript_success env fs0 h
  rw [hrun] at h ⊢
  obtain ⟨prc, pr, m, svc, svc2, p, fs1, hic, hcl, hc, hp, hs, hst⟩ :=
    runRest_success env _ _ fs0 h
  rw [hst]
  exact ⟨m, (importBlock env).trace, rfl, importBlock_trace_events env⟩

/-- C4 witness: the all-success run has the five-event linear trace. -/
theorem success_linear_sequence_w :
    ∃ m itr,
      (runScript envOk []).trace =
        itr ++ [Event.constructService, Event.packOp "model" m, Event.saveOp] ∧
      ∀ ev ∈ itr,
        ev = Event.importPlainClass ∨ ev = Event.importPlainModel ∨
        ev = Event.importPkgClass ∨ ev = Event.importPkgModel :=
  success_linear_sequence envOk [] rfl

/-- In every run, the trace either lacks the save event entirely or ends
with its only occurrence. -/
theorem trace_save_split (env : Env) (fs0 : List String) :
    ∃ tr0, Event.saveOp ∉ tr0 ∧
      ((runScript env fs0).trace = tr0 ∨
        (runScript env fs0).trace = tr0 ++ [Event.saveOp]) := by
  have hsv : Event.saveOp ∉ (importBlock env).trace := by
    intro hmem
    rcases importBlock_trace_events env _ hmem with h1 | h1 | h1 | h1 <;> simp at h1
  unfold runScript
  rcases hib : (importBlock env).exn with _ | e <;> simp [hib]
  · rcases runRest_trace_shape env (importBlock env).trace (importBlock env).b fs0 with
      ht | ht | ⟨pr, m, hcl, ht⟩ | ⟨pr, m, hcl, ht⟩ <;> rw [ht]
    · exact ⟨_, hsv, Or.inl rfl⟩
    · refine ⟨(importBlock env).trace ++ [Event.constructService], ?_, Or.inl rfl⟩
      simp [hsv]
    · refine ⟨(importBlock env).trace ++
        [Event.constructService, Event.packOp "model" m], ?_, Or.inl rfl⟩
      simp [hsv]
    · refine ⟨(importBlock env).trace ++
        [Event.constructService, Event.packOp "model" m], ?_, Or.inr ?_⟩
      · simp [hsv]
      · simp
  · exact ⟨_, hsv, Or.inl rfl⟩

/-- C8: in every run the save operation occurs at most once, and when it
occurs it is the final event of the run, never followed by another access. -/
theorem save_at_most_once (env : Env) (fs0 : List String) :
    ∃ tr0, Event.saveOp ∉ tr0 ∧
      ((runScript env fs0).trace = tr0 ∨
        (runScript env fs0).trace = tr0 ++ [Event.saveOp]) :=
  trace_save_split env fs0

/-- C8 witness: the all-success run attempts save exactly once, last. -/
theorem save_at_most_once_w :
    ∃ tr0, Event.saveOp ∉ tr0 ∧
      ((runScript envOk []).trace = tr0 ∨
        (runScript envOk []).trace = tr0 ++ [Event.saveOp]) :=
  save_at_most_once envOk []

/-- C10: nothing happens after save: when attempted, save is the last
event, and the returned string is only bound, never inspected — replacing
it changes neither the trace, the exception, nor the filesystem. -/
theorem nothing_after_save (env : Env) (fs0 : List String) :
    (Event.saveOp ∈ (runScript env fs0).trace →
      ∃ tr0, (runScript env fs0).trace = tr0 ++ [Event.saveOp] ∧
        Event.saveOp ∉ tr0) ∧
    (∀ q, (runScript (withSavedPath env q) fs0).trace = (runScript env fs0).trace ∧
      (runScript (withSavedPath env q) fs0).exn = (runScript env fs0).exn ∧
      (runScript (withSavedPath env q) fs0).fs = (runScript env fs0).fs) := by
  constructor
  · intro hmem
    obtain ⟨tr0, hn, hor⟩ := trace_save_split env fs0
    rcases hor with hor | hor
    · rw [hor] at hmem
      exact absurd hmem hn
    · exact ⟨tr0, hor, hn⟩
  · intro q
    unfold runScript
    rw [importBlock_withSavedPath]
    rcases hib : (importBlock env).exn with _ | e <;> simp [hib]
    exact ⟨(runRest_withSavedPath env q _ _ fs0).1,
      (runRest_withSavedPath env q _ _ fs0).2.1,
      (runRest_withSavedPath env q _ _ fs0).2.2.1⟩

/-- C10 witness: in the all-success run, save is the last event. -/
theorem nothing_after_save_w :
    ∃ tr0, (runScript envOk []).trace = tr0 ++ [Event.saveOp] ∧
      Event.saveOp ∉ tr0 :=
  (nothing_after_save envOk []).1 (by decide)

/-- If the variable saved_path got bound, its value together with the
final filesystem is exactly an output of the save method. -/
theorem runRest_saved_path (env : Env) (tr : List Event) (b : Bindings) (fs0 : List String)
    (p : String) (h : (runRest env tr b fs0).saved_path = some p) :
    ∃ svc2, env.saveImpl svc2 fs0 = .ok (p, (runRest env tr b fs0).fs) := by
  unfold runRest at h ⊢
  rcases hic : b.irisClassifier with _ | pr <;> simp [hic] at h ⊢
  rcases h1 : env.construct with e | svc <;> simp [h1] at h ⊢
  rcases hcl : b.clf with _ | ⟨pr2, m⟩ <;> simp [hcl] at h ⊢
  rcases h2 : env.packImpl svc "model" m with e | svc2 <;> simp [h2] at h ⊢
  rcases h3 : env.saveImpl svc2 fs0 with e | ⟨p2, fs1⟩ <;> simp [h3] at h ⊢
  subst h
  exact ⟨svc2, h3⟩

/-- C7: the reported path is determined entirely by the framework: any
path the script reports is verbatim an output of the save method with the
accompanying filesystem, and substituting the framework-returned string
renames the reported path pointwise. -/
theorem path_from_framework (env : Env) (fs0 : List String) :
    (∀ p, (runScript env fs0).saved_path = some p →
      ∃ svc2, env.saveImpl svc2 fs0 = .ok (p, (runScript env fs0).fs)) ∧
    (∀ q, (runScript (withSavedPath env q) fs0).saved_path
      = (runScript env fs0).saved_path.map (fun _ => q)) := by
  constructor
  · intro p hp
    unfold runScript at hp ⊢
    rcases hib : (importBlock env).exn with _ | e <;> simp [hib] at hp ⊢
    exact runRest_saved_path env _ _ fs0 p hp
  · intro q
    unfold runScript
    rw [importBlock_withSavedPath]
    rcases hib : (importBlock env).exn with _ | e <;> simp [hib]
    exact (runRest_withSavedPath env q _ _ fs0).2.2.2

/-- C7 witness: the path the all-success run reports is the framework
output for the packed instance. -/
theorem path_from_framework_w :
    ∃ svc2, envOk.saveImpl svc2 [] = .ok ("/bento/IrisClassifier", (runScript envOk []).fs) :=
  (path_from_framework envOk []).1 "/bento/IrisClassifier" (by decide)

/-- C6: on a successful run the value save returned is captured: the
variable saved_path holds exactly the path component of the save output
that produced the final filesystem. -/
theorem saved_path_records_save (env : Env) (fs0 : List String)
    (h : (runScript env fs0).exn = none) :
    ∃ p svc2, env.saveImpl svc2 fs0 = .ok (p, (runScript env fs0).fs) ∧
      (runScript env fs0).saved_path = some p := by
  obtain ⟨hib, hrun⟩ := runScript_success env fs0 h
  rw [hrun] at h ⊢
  obtain ⟨prc, pr, m, svc, svc2, p, fs1, hic, hcl, hc, hp, hs, hst⟩ :=
    runRest_success env _ _ fs0 h
  rw [hst]
  exact ⟨p, svc2, hs, rfl⟩

/-- C6 witness: the all-success run captures the save output in
saved_path. -/
theorem saved_path_records_save_w :
    ∃ p svc2, envOk.saveImpl svc2 [] = .ok (p, (runScript envOk []).fs) ∧
      (runScript envOk []).saved_path = some p :=
  saved_path_records_save envOk [] rfl

/-- C1: under the framework save contract, a run where no operation raised
reports a non-empty path, the filesystem holds exactly one new artifact,
and the reported path refers to it. -/
theorem save_success_one_artifact (env : Env) (fs0 : List String)
    (hC : SaveOneArtifact env) (h : (runScript env fs0).exn = none) :
    ∃ p, (runScript env fs0).saved_path = some p ∧ p ≠ "" ∧
      (runScript env fs0).fs = fs0 ++ [p] ∧ p ∈ (runScript env fs0).fs := by
  obtain ⟨hib, hrun⟩ := runScript_success env fs0 h
  rw [hrun] at h ⊢
  obtain ⟨prc, pr, m, svc, svc2, p, fs1, hic, hcl, hc, hp, hs, hst⟩ :=
    runRest_success env _ _ fs0 h
  obtain ⟨hne, hfs⟩ := hC svc2 fs0 p fs1 hs
  rw [hst]
  subst hfs
  exact ⟨p, rfl, hne, rfl, by simp⟩

/-- C1 witness: the all-success run persists exactly one artifact at a
non-empty, existing path. -/
theorem save_success_one_artifact_w :
    ∃ p, (runScript envOk []).saved_path = some p ∧ p ≠ "" ∧
      (runScript envOk []).fs = [] ++ [p] ∧ p ∈ (runScript envOk []).fs :=
  save_success_one_artifact envOk []
    (by
      intro svc fs p fs1 h
      simp only [envOk] at h
      rw [Except.ok.injEq, Prod.mk.injEq] at h
      obtain ⟨h1, h2⟩ := h
      subst h1
      subst h2
      exact ⟨by decide, rfl⟩)
    rfl

/-- C3: exceptions after the try body are never handled: an exception from
either package-qualified import, from pack, or from save becomes the
uncaught exception of the script verbatim, with saved_path left unbound and the
failing operation attempted only once, its event closing the trace. -/
theorem late_errors_propagate (env : Env) (fs0 : List String) :
    (∀ e, FirstAttemptFails env → env.import2_class = .error e →
      (runScript env fs0).exn = some e ∧ (runScript env fs0).saved_path = none) ∧
    (∀ e u, FirstAttemptFails env → env.import2_class = .ok u →
      env.import2_model = .error e →
      (runScript env fs0).exn = some e ∧ (runScript env fs0).saved_path = none) ∧
    (∀ e svc prc pr m tr, importBlock env = ⟨tr, ⟨some prc, some (pr, m)⟩, none⟩ →
      env.construct = .ok svc → env.packImpl svc "model" m = .error e →
      (runScript env fs0).exn = some e ∧ (runScript env fs0).saved_path = none ∧
      (runScript env fs0).trace =
        tr ++ [Event.constructService, Event.packOp "model" m]) ∧
    (∀ e svc svc2 prc pr m tr, importBlock env = ⟨tr, ⟨some prc, some (pr, m)⟩, none⟩ →
      env.construct = .ok svc → env.packImpl svc "model" m = .ok svc2 →
      env.saveImpl svc2 fs0 = .error e →
      (runScript env fs0).exn = some e ∧ (runScript env fs0).saved_path = none ∧
      (runScript env fs0).trace =
        tr ++ [Event.constructService, Event.packOp "model" m, Event.saveOp]) := by
  refine ⟨?_, ?_, ?_, ?_⟩
  · intro e hf h2
    unfold runScript importBlock fallbackImports
    rcases hf with ⟨e1, he⟩ | ⟨⟨u, hu⟩, e1, he⟩
    · simp [he, h2]
    · simp [hu, he, h2]
  · intro e u hf h2 h3
    unfold runScript importBlock fallbackImports
    rcases hf with ⟨e1, he⟩ | ⟨⟨u1, hu⟩, e1, he⟩
    · simp [he, h2, h3]
    · simp [hu, he, h2, h3]
  · intro e svc prc pr m tr hib hc hp
    unfold runScript
    rw [hib]
    unfold runRest
    simp [hc, hp]
  · intro e svc svc2 prc pr m tr hib hc hp hs
    unfold runScript
    rw [hib]
    unfold runRest
    simp [hc, hp, hs]

/-- C3 witness: with save raising OSError, the run ends with that same
exception uncaught, saved_path unbound, and a single save attempt closing
the trace. -/
theorem late_errors_propagate_w :
    (runScript envBadSave []).exn = some ⟨"OSError"⟩ ∧
      (runScript envBadSave []).saved_path = none ∧
      (runScript envBadSave []).trace =
        [Event.importPlainClass, Event.importPlainModel] ++
          [Event.constructService, Event.packOp "model" clfA, Event.saveOp] :=
  (late_errors_propagate envBadSave []).2.2.2 ⟨"OSError"⟩ ⟨[]⟩ ⟨[("model", clfA)]⟩
    Provenance.plain Provenance.plain clfA
    [Event.importPlainClass, Event.importPlainModel] rfl rfl rfl rfl
